import Mathlib

/-!
Verification of the citation-snowball engine (`src/citation_snowball`).

This file gives a shallow embedding, in Lean, of the pure core of the
snowball engine: the data model (`core/models.py`), the saturation
detector (`snowball/saturation.py`), the candidate filter and discovery
tracker (`snowball/filtering.py`), the scorer (`snowball/scoring.py`),
the paper repository (`db/repository.py`), and the iteration state
update and metrics computation of the engine (`snowball/engine.py`).

Python `float` arithmetic is embedded as exact rational arithmetic (`ℚ`);
all divisions appearing in the source are between small integer-valued
quantities, so the embedding is exact.  Python `int` is embedded as `ℤ`;
machine overflow does not arise (Python integers are unbounded).
Python `str` is embedded as `String`, with `str.lower` and `str.replace`
re-implemented character-wise below so that the kernel can evaluate them.
Python exceptions are embedded as an explicit `Except PyErr` result;
`PyErr` records the exception class name and message.
-/

/-- Truthiness of an optional Python integer: `if x:` is false for `None`
and for `0`. -/
def truthyInt : Option Int → Bool
  | none => false
  | some n => n != 0

/-- Python `str.lower`, character by character (the identifiers and type
strings handled by this program are ASCII). -/
def pyLower (s : String) : String := ⟨s.data.map Char.toLower⟩

/-- Left-to-right, non-overlapping replacement of `pat` by `rep` in a
character list, as performed by Python `str.replace`.  The first argument
is fuel; callers pass the length of the subject string, which suffices
because every step consumes at least one character.  An empty pattern
leaves the string unchanged (the source only ever replaces non-empty
patterns). -/
def pyReplaceAux (pat rep : List Char) : Nat → List Char → List Char
  | _, [] => []
  | 0, l => l
  | fuel + 1, c :: cs =>
    if pat ≠ [] ∧ pat.isPrefixOf (c :: cs) then
      rep ++ pyReplaceAux pat rep fuel ((c :: cs).drop pat.length)
    else
      c :: pyReplaceAux pat rep fuel cs

/-- Python `s.replace(pat, rep)`. -/
def pyReplace (s pat rep : String) : String :=
  ⟨pyReplaceAux pat.data rep.data s.data.length s.data⟩

/-- Exception value: Python exception class name and message. -/
structure PyErr where
  name : String
  msg : String
deriving DecidableEq, Repr

/-- `DiscoveryMethod` enum from `core/models.py`. -/
inductive DiscoveryMethod where
  | seed
  | forward
  | backward
  | author
  | related
deriving DecidableEq, Repr

/-- `YearCount` from `core/models.py`: citation count for a specific year. -/
structure YearCount where
  year : Int
  cited_by_count : Int
deriving DecidableEq, Repr

/-- `S2Author` from `core/models.py` (fields used by the scorer). -/
structure S2Author where
  authorId : Option String
  sname : Option String
deriving DecidableEq, Repr

/-- `Work` from `core/models.py`: the provider's raw candidate record
(fields consumed by the filter, scorer and engine; provider fields not
read by any embedded function are omitted). -/
structure Work where
  paperId : String
  publicationTypes : Option (List String)
  type_value : Option String
  year : Option Int
  citationCount : Int
  counts_by_year : List YearCount
  referenced_works : List String
  authors : List S2Author
  language_value : Option String
  is_retracted_value : Bool
deriving DecidableEq, Repr

/-- `Work.type` property: first entry of `publicationTypes` when that list
is truthy (non-`None` and non-empty), otherwise `type_value`. -/
def Work.type (w : Work) : Option String :=
  match w.publicationTypes with
  | some (t :: _) => some t
  | _ => w.type_value

/-- `Work.publication_year` compatibility property (alias of `year`). -/
def Work.publication_year (w : Work) : Option Int := w.year

/-- `Work.cited_by_count` compatibility property (alias of `citationCount`). -/
def Work.cited_by_count (w : Work) : Int := w.citationCount

/-- `Work.language` compatibility property (alias of `language_value`). -/
def Work.language (w : Work) : Option String := w.language_value

/-- `Work.is_retracted` compatibility property (alias of `is_retracted_value`). -/
def Work.is_retracted (w : Work) : Bool := w.is_retracted_value

/-- `AuthorInfo` from `core/models.py`. -/
structure AuthorInfo where
  id : String
  display_name : String
deriving DecidableEq, Repr

/-- `ScoreBreakdown` from `core/models.py`, over exact rationals. -/
structure ScoreBreakdown where
  citation_velocity : ℚ
  recent_citations : ℚ
  foundational_score : ℚ
  author_overlap : ℚ
  recency_bonus : ℚ
  total : ℚ
deriving DecidableEq, Repr

/-- `ScoringWeights` from `core/models.py`. -/
structure ScoringWeights where
  citation_velocity : ℚ
  recent_citations : ℚ
  foundational : ℚ
  author_overlap : ℚ
  recency : ℚ
deriving DecidableEq, Repr

/-- Default `ScoringWeights` (0.25, 0.20, 0.25, 0.15, 0.15). -/
def defaultWeights : ScoringWeights :=
  { citation_velocity := 25 / 100
    recent_citations := 20 / 100
    foundational := 25 / 100
    author_overlap := 15 / 100
    recency := 15 / 100 }

/-- `Paper` from `core/models.py` (fields consumed by the embedded
functions; download/timestamp bookkeeping fields are omitted). -/
structure Paper where
  id : String
  openalex_id : String
  title : String
  authors : List AuthorInfo
  publication_year : Option Int
  cited_by_count : Int
  counts_by_year : List YearCount
  referenced_works : List String
  score : ℚ
  discovery_method : DiscoveryMethod
  discovered_from : List String
  iteration_added : Int
deriving DecidableEq, Repr

/-- `ProjectConfig` from `core/models.py` (fields consumed by the embedded
functions). -/
structure ProjectConfig where
  weights : ScoringWeights
  min_year : Option Int
  max_year : Option Int
  min_citations : Int
  include_preprints : Bool
  language : String
  max_iterations : Int
  max_papers : Int
  papers_per_iteration : Nat
  growth_threshold : ℚ
  novelty_threshold : ℚ
deriving DecidableEq, Repr

/-- Default `ProjectConfig` field values from `core/models.py`. -/
def defaultConfig : ProjectConfig :=
  { weights := defaultWeights
    min_year := none
    max_year := none
    min_citations := 0
    include_preprints := true
    language := "en"
    max_iterations := 5
    max_papers := 500
    papers_per_iteration := 50
    growth_threshold := 5 / 100
    novelty_threshold := 10 / 100 }

/-- `IterationMetrics` from `core/models.py` (timestamp omitted). -/
structure IterationMetrics where
  iteration_number : Int
  papers_before : Int
  papers_after : Int
  new_papers : Int
  growth_rate : ℚ
  novelty_rate : ℚ
  forward_found : Int
  backward_found : Int
  author_found : Int
  related_found : Int
deriving DecidableEq, Repr

/-- `SaturationResult` from `snowball/saturation.py`.  The human-readable
`reason` strings that interpolate numbers are carried without Python's
percent formatting (no claim depends on the numeric rendering). -/
structure SaturationResult where
  is_saturated : Bool
  reason : Option String
  confidence : ℚ
deriving DecidableEq, Repr

/-- `SaturationDetector.check` from `snowball/saturation.py`: the four
stop conditions, evaluated in source order with early return. -/
def SaturationDetector.check (cfg : ProjectConfig) (m : IterationMetrics) :
    SaturationResult :=
  if m.new_papers = 0 then
    { is_saturated := true
      reason := some "No new papers added this iteration"
      confidence := 1 }
  else if m.iteration_number ≥ cfg.max_iterations then
    { is_saturated := true
      reason := some ("Maximum iterations (" ++ toString cfg.max_iterations ++ ") reached")
      confidence := 1 }
  else if m.growth_rate < cfg.growth_threshold then
    { is_saturated := true
      reason := some "Growth rate below threshold"
      confidence := 8 / 10 + (1 - m.growth_rate / cfg.growth_threshold) * (2 / 10) }
  else if m.novelty_rate < cfg.novelty_threshold then
    { is_saturated := true
      reason := some "Novelty rate below threshold"
      confidence := 9 / 10 }
  else
    { is_saturated := false
      reason := none
      confidence := 0 }

/-- Allowed document types (`PaperFilter._is_valid_type`,
`snowball/filtering.py`). -/
def valid_types : List String :=
  ["journal-article", "article", "review", "preprint", "posted-content",
   "book", "book-chapter"]

/-- Preprint types excluded when `include_preprints` is off
(`snowball/filtering.py`, `exclude_types`).  Note that the source writes
these with a dash while the normalised `work_type` has dashes replaced by
underscores. -/
def exclude_types : List String := ["preprint", "posted-content"]

/-- `PaperFilter._is_valid_type` from `snowball/filtering.py`.  Python
`if not work.type` is false for `None` and for the empty string; the
candidate type is lower-cased and has dashes replaced by underscores
before the membership tests. -/
def PaperFilter.is_valid_type (cfg : ProjectConfig) (w : Work) : Bool :=
  match w.type with
  | none => false
  | some t =>
    if t = "" then false
    else
      let work_type := pyReplace (pyLower t) "-" "_"
      let mapped := valid_types.map (fun v => pyReplace v "-" "_")
      if cfg.include_preprints then
        mapped.contains work_type
      else
        mapped.contains work_type && !(exclude_types.contains work_type)

/-- `PaperFilter._is_valid_language` from `snowball/filtering.py`:
absent language is not disqualifying, otherwise case-insensitive equality
with the configured language. -/
def PaperFilter.is_valid_language (cfg : ProjectConfig) (w : Work) : Bool :=
  match w.language with
  | none => true
  | some l =>
    if l = "" then true
    else pyLower l = pyLower cfg.language

/-- `PaperFilter.should_include` from `snowball/filtering.py`: year range
(checked only when the year is truthy, and only against truthy bounds),
document type, language, minimum citations, retraction. -/
def PaperFilter.should_include (cfg : ProjectConfig) (w : Work) : Bool :=
  if truthyInt w.publication_year &&
      ((truthyInt cfg.min_year &&
          decide (w.publication_year.getD 0 < cfg.min_year.getD 0)) ||
        (truthyInt cfg.max_year &&
          decide (w.publication_year.getD 0 > cfg.max_year.getD 0))) then
    false
  else if !(PaperFilter.is_valid_type cfg w) then false
  else if !(PaperFilter.is_valid_language cfg w) then false
  else if w.cited_by_count < cfg.min_citations then false
  else if w.is_retracted then false
  else true

/-- `PaperFilter.should_exclude` from `snowball/filtering.py`. -/
def PaperFilter.should_exclude (w : Work) (existing_ids : List String) :
    Bool × Option String :=
  if existing_ids.contains w.paperId then (true, some "Already in collection")
  else (false, none)

/-- State of `DiscoveryTracker._discoveries`: a finite map from work id to
`(method, source ids)`, embedded as an association list (Python dict
insertion order is irrelevant to every claim). -/
abbrev DiscoveryMap := List (String × DiscoveryMethod × Finset String)

/-- Lookup of a work id in the tracker state. -/
def findDiscovery (t : DiscoveryMap) (workId : String) :
    Option (DiscoveryMethod × Finset String) :=
  match t with
  | [] => none
  | (k, v) :: rest => if k = workId then some v else findDiscovery rest workId

/-- Replacement of the entry stored under `workId` (used for both arms of
the conflict resolution in `add_discovery`). -/
def setDiscovery : DiscoveryMap → String →
    DiscoveryMethod × Finset String → DiscoveryMap
  | [], _, _ => []
  | (k, w) :: rest, workId, v =>
    if k = workId then (workId, v) :: setDiscovery rest workId v
    else (k, w) :: setDiscovery rest workId v

/-- Discovery-method priority from `DiscoveryTracker.add_discovery`
(`snowball/filtering.py`): the Python dict maps author to 3, forward to 2,
backward and related to 1, and `priority.get(_, 0)` defaults seed to 0. -/
def priorityOf : DiscoveryMethod → Nat
  | .author => 3
  | .forward => 2
  | .backward => 1
  | .related => 1
  | .seed => 0

/-- `DiscoveryTracker.add_discovery` from `snowball/filtering.py`: a new
id is inserted; for a tracked id, a strictly higher-priority method
replaces the stored `(method, sources)` pair, otherwise the new source ids
are merged (`set.update`) into the stored sources and the stored method is
kept. -/
def DiscoveryTracker.add_discovery (t : DiscoveryMap) (workId : String)
    (method : DiscoveryMethod) (sourceIds : Finset String) : DiscoveryMap :=
  match findDiscovery t workId with
  | some (existing_method, existing_sources) =>
    if priorityOf method > priorityOf existing_method then
      setDiscovery t workId (method, sourceIds)
    else
      setDiscovery t workId (existing_method, existing_sources ∪ sourceIds)
  | none => t ++ [(workId, (method, sourceIds))]

/-- `DiscoveryTracker.get_discovery_method`: defaults to `seed` for
untracked ids. -/
def DiscoveryTracker.get_discovery_method (t : DiscoveryMap)
    (workId : String) : DiscoveryMethod :=
  match findDiscovery t workId with
  | some (m, _) => m
  | none => .seed

/-- `DiscoveryTracker.get_discovery_sources`: defaults to the empty set
for untracked ids. -/
def DiscoveryTracker.get_discovery_sources (t : DiscoveryMap)
    (workId : String) : Finset String :=
  match findDiscovery t workId with
  | some (_, s) => s
  | none => ∅

/-- `ScoringContext` from `snowball/scoring.py`. -/
structure ScoringContext where
  seed_papers : List Paper
  seed_authors : Finset String
  current_year : Int
  weights : ScoringWeights
  seed_referenced_works : Finset String
deriving DecidableEq

/-- OpenAlex URL base stripped from reference ids by
`Scorer._calculate_foundational_score` and `create_default_context`. -/
def openalexUrl : String := "https://openalex.org/"

/-- `Scorer._calculate_citation_velocity` from `snowball/scoring.py`.
Python `not work.publication_year` is true for `None` and for year `0`. -/
def Scorer.calc_citation_velocity (w : Work) (ctx : ScoringContext) : ℚ :=
  match w.publication_year with
  | none => 0
  | some y =>
    if y = 0 then 0
    else if y ≥ ctx.current_year then 0
    else
      let age : Int := ctx.current_year - y
      if age ≤ 0 then 0
      else
        let velocity : ℚ := (w.cited_by_count : ℚ) / (age : ℚ)
        min (velocity / 100) 1

/-- `Scorer._calculate_recent_citations` from `snowball/scoring.py`.
When `counts_by_year` is non-empty the source compares
`current_year - i >= work.publication_year` without guarding against a
missing year, so a work with counts but no publication year raises a
`TypeError` (an `int`/`NoneType` comparison); this is embedded as an
explicit error result. -/
def Scorer.calc_recent_citations (w : Work) (ctx : ScoringContext) :
    Except PyErr ℚ :=
  if w.counts_by_year = [] then .ok 0
  else
    match w.publication_year with
    | none =>
      .error { name := "TypeError"
               msg := "unsupported comparison between int and NoneType" }
    | some y =>
      let recent_years :=
        ((List.range 3).map (fun i => ctx.current_year - (i : Int))).filter
          (fun ry => ry ≥ y)
      let recent_total : Int :=
        w.counts_by_year.foldl
          (fun acc yc =>
            if recent_years.contains yc.year then acc + yc.cited_by_count
            else acc)
          0
      .ok (min ((recent_total : ℚ) / 100) 1)

/-- Inner loop of `Scorer._calculate_foundational_score`: scan one seed's
reference list and stop at the first reference whose id (with the OpenAlex
URL base stripped) equals the candidate's id (`break` in the source). -/
def firstRefMatches (workId : String) : List String → Bool
  | [] => false
  | r :: rs =>
    if pyReplace r openalexUrl "" = workId then true
    else firstRefMatches workId rs

/-- Outer loop of `Scorer._calculate_foundational_score`: count the seeds
whose reference list matched. -/
def citingSeedCount (workId : String) (seeds : List Paper) : Nat :=
  seeds.foldl
    (fun acc seed =>
      if firstRefMatches workId seed.referenced_works then acc + 1 else acc)
    0

/-- `Scorer._calculate_foundational_score` from `snowball/scoring.py`. -/
def Scorer.calc_foundational_score (w : Work) (ctx : ScoringContext) : ℚ :=
  if ctx.seed_papers = [] then 0
  else
    (citingSeedCount w.paperId ctx.seed_papers : ℚ) /
      (ctx.seed_papers.length : ℚ)

/-- Author ids of a work as seen by `Scorer._calculate_author_overlap`:
the `authorships` compatibility property maps a missing `authorId` to the
empty string, and the set comprehension keeps truthy (non-empty) ids. -/
def workAuthorIds (w : Work) : Finset String :=
  (w.authors.filterMap
    (fun a =>
      match a.authorId with
      | none => none
      | some s => if s = "" then none else some s)).toFinset

/-- `Scorer._calculate_author_overlap` from `snowball/scoring.py`. -/
def Scorer.calc_author_overlap (w : Work) (ctx : ScoringContext) : ℚ :=
  if ctx.seed_authors = ∅ then 0
  else if w.authors = [] then 0
  else
    let ids := workAuthorIds w
    if ids = ∅ then 0
    else ((ids ∩ ctx.seed_authors).card : ℚ) / (ids.card : ℚ)

/-- `Scorer._calculate_recency_bonus` from `snowball/scoring.py`. -/
def Scorer.calc_recency_bonus (w : Work) (ctx : ScoringContext) : ℚ :=
  match w.publication_year with
  | none => 0
  | some y =>
    if y = 0 then 0
    else
      let age : Int := ctx.current_year - y
      if age < 0 then 0
      else max 0 (1 - (age : ℚ) / 10)

/-- `Scorer.get_score_breakdown` from `snowball/scoring.py`: the five
components in source order (only the recent-citations component can
raise), combined with the scorer's weights. -/
def Scorer.get_score_breakdown (weights : ScoringWeights) (w : Work)
    (ctx : ScoringContext) : Except PyErr ScoreBreakdown :=
  let cv := Scorer.calc_citation_velocity w ctx
  match Scorer.calc_recent_citations w ctx with
  | .error e => .error e
  | .ok rc =>
    let fs := Scorer.calc_foundational_score w ctx
    let ao := Scorer.calc_author_overlap w ctx
    let rb := Scorer.calc_recency_bonus w ctx
    let total :=
      weights.citation_velocity * cv + weights.recent_citations * rc +
        weights.foundational * fs + weights.author_overlap * ao +
        weights.recency * rb
    .ok
      { citation_velocity := cv
        recent_citations := rc
        foundational_score := fs
        author_overlap := ao
        recency_bonus := rb
        total := total }

/-- One row of the `papers` table (`db/repository.py`): the owning
project id together with the stored paper record. -/
structure PaperRow where
  project_id : String
  paper : Paper
deriving DecidableEq, Repr

/-- The `papers` table, in insertion order (SQLite `INSERT` appends). -/
structure Database where
  papers : List PaperRow
deriving DecidableEq, Repr

/-- `PaperRepository.get_by_openalex_id` from `db/repository.py`: first
row matching the project id and external id. -/
def PaperRepository.get_by_openalex_id (db : Database)
    (projectId openalexId : String) : Option Paper :=
  (db.papers.find?
    (fun r => r.project_id == projectId && r.paper.openalex_id == openalexId)).map
    (fun r => r.paper)

/-- `PaperRepository.create` from `db/repository.py`: return the existing
row when the (project id, external id) pair is already present, otherwise
insert.  `freshId` stands for the generated UUID assigned when the
incoming paper's `id` is falsy (the empty string). -/
def PaperRepository.create (db : Database) (projectId : String)
    (paper : Paper) (freshId : String) : Paper × Database :=
  match PaperRepository.get_by_openalex_id db projectId paper.openalex_id with
  | some existing => (existing, db)
  | none =>
    let p := if paper.id = "" then { paper with id := freshId } else paper
    (p, { papers := db.papers ++ [{ project_id := projectId, paper := p }] })

/-- Insertion step of the title sort used by `list_seeds`. -/
def insertByTitle (p : Paper) : List Paper → List Paper
  | [] => [p]
  | q :: qs =>
    if p.title ≤ q.title then p :: q :: qs else q :: insertByTitle p qs

/-- Insertion sort by title, modelling SQL `ORDER BY title` in
`list_seeds`. -/
def sortByTitle : List Paper → List Paper
  | [] => []
  | p :: ps => insertByTitle p (sortByTitle ps)

/-- `PaperRepository.list_seeds` from `db/repository.py`: papers of the
project whose discovery method is `seed`, ordered by title. -/
def PaperRepository.list_seeds (db : Database) (projectId : String) :
    List Paper :=
  sortByTitle
    ((db.papers.filter
        (fun r =>
          r.project_id == projectId &&
            r.paper.discovery_method == DiscoveryMethod.seed)).map
      (fun r => r.paper))

/-- `PaperRepository.get_all_openalex_ids` from `db/repository.py`
(as a list of ids; only membership is ever consumed). -/
def PaperRepository.get_all_openalex_ids (db : Database)
    (projectId : String) : List String :=
  (db.papers.filter (fun r => r.project_id == projectId)).map
    (fun r => r.paper.openalex_id)

/-- Engine working state (`SnowballEngine.working_set` and
`SnowballEngine.all_collected`, `snowball/engine.py`). -/
structure EngineState where
  working_set : List Paper
  all_collected : List Paper
deriving DecidableEq, Repr

/-- Prefix of `SnowballEngine.run` up to the seed checks
(`snowball/engine.py` lines 79-84 and `_initialize` lines 132-139): load
the seed papers; when the working set is empty, `_initialize` raises
`ValueError("No seed papers found in project")` (so the second check in
`run`, which would raise `ValueError("No seed papers found")`, is
unreachable).  The iteration loop that follows a successful start is not
modelled here; the claims about `run` concern only this failure path. -/
def SnowballEngine.runStart (db : Database) (projectId : String) :
    Except PyErr (List Paper) :=
  let ws := PaperRepository.list_seeds db projectId
  if ws = [] then
    .error { name := "ValueError", msg := "No seed papers found in project" }
  else if ws = [] then
    .error { name := "ValueError", msg := "No seed papers found" }
  else .ok ws

/-- `SnowballEngine._calculate_metrics` from `snowball/engine.py`, a pure
function of the iteration number, the cumulative collection (after the
iteration's extension), the candidate list and the selected papers.  The
source hardcodes the four per-channel counts to 0 with the comment
"Source counts would need to be tracked during collection". -/
def SnowballEngine.calc_metrics (iterationNum : Int)
    (allCollected : List Paper) (candidates : List Work)
    (selected : List Paper) : IterationMetrics :=
  let papers_before : Int :=
    (allCollected.length : Int) - (selected.length : Int)
  let papers_after : Int := (allCollected.length : Int)
  let new_papers : Int := (selected.length : Int)
  let growth_rate : ℚ :=
    if papers_before > 0 then (new_papers : ℚ) / (papers_before : ℚ) else 0
  let novelty_rate : ℚ :=
    if candidates = [] then 0
    else (new_papers : ℚ) / (candidates.length : ℚ)
  { iteration_number := iterationNum
    papers_before := papers_before
    papers_after := papers_after
    new_papers := new_papers
    growth_rate := growth_rate
    novelty_rate := novelty_rate
    forward_found := 0
    backward_found := 0
    author_found := 0
    related_found := 0 }

/-- State update of `SnowballEngine._run_iteration`
(`snowball/engine.py` lines 170-192): the working set is assigned the
selected papers, the cumulative collection is extended by them, and the
iteration's metrics are computed from the extended collection.  The
selected papers are passed in as the result of the
collect/filter/score/select pipeline of the same iteration. -/
def SnowballEngine.run_iteration_update (iterationNum : Int)
    (s : EngineState) (candidates : List Work) (selected : List Paper) :
    EngineState × IterationMetrics :=
  let s' : EngineState :=
    { working_set := selected, all_collected := s.all_collected ++ selected }
  (s', SnowballEngine.calc_metrics iterationNum s'.all_collected candidates selected)

/-- Sample seed paper used in concrete instances. -/
def paperA : Paper :=
  { id := "p-a"
    openalex_id := "WA"
    title := "Alpha"
    authors := []
    publication_year := some 2019
    cited_by_count := 50
    counts_by_year := []
    referenced_works := ["W1"]
    score := 0
    discovery_method := .seed
    discovered_from := []
    iteration_added := 0 }

/-- Sample non-seed paper used in concrete instances. -/
def paperB : Paper :=
  { id := "p-b"
    openalex_id := "WB"
    title := "Beta"
    authors := []
    publication_year := some 2021
    cited_by_count := 10
    counts_by_year := []
    referenced_works := []
    score := 0
    discovery_method := .forward
    discovered_from := ["WA"]
    iteration_added := 1 }

/-- Sample candidate work used in concrete instances. -/
def workCand : Work :=
  { paperId := "WC"
    publicationTypes := none
    type_value := some "journal-article"
    year := some 2022
    citationCount := 5
    counts_by_year := []
    referenced_works := []
    authors := []
    language_value := none
    is_retracted_value := false }

/-- Metrics of an iteration that admitted no papers while both rates
breach the default thresholds. -/
def mNoNew : IterationMetrics :=
  { iteration_number := 2
    papers_before := 10
    papers_after := 10
    new_papers := 0
    growth_rate := 0
    novelty_rate := 0
    forward_found := 0
    backward_found := 0
    author_found := 0
    related_found := 0 }

/-- C2: the saturation check evaluates its conditions in a fixed order
with the first match winning: `new_papers == 0` gives saturated with
confidence 1.0 regardless of the rates; otherwise
`iteration_number >= max_iterations` gives saturated with confidence 1.0;
otherwise `growth_rate < growth_threshold` gives saturated with
confidence `0.8 + (1 − growth_rate/growth_threshold)×0.2`; otherwise
`novelty_rate < novelty_threshold` gives saturated with confidence 0.9;
otherwise not saturated with confidence 0.0. -/
theorem saturation_check_first_match_order (cfg : ProjectConfig)
    (m : IterationMetrics) :
    (m.new_papers = 0 →
      SaturationDetector.check cfg m =
        { is_saturated := true
          reason := some "No new papers added this iteration"
          confidence := 1 }) ∧
    (m.new_papers ≠ 0 → m.iteration_number ≥ cfg.max_iterations →
      (SaturationDetector.check cfg m).is_saturated = true ∧
      (SaturationDetector.check cfg m).confidence = 1) ∧
    (m.new_papers ≠ 0 → ¬m.iteration_number ≥ cfg.max_iterations →
      m.growth_rate < cfg.growth_threshold →
      (SaturationDetector.check cfg m).is_saturated = true ∧
      (SaturationDetector.check cfg m).confidence =
        8 / 10 + (1 - m.growth_rate / cfg.growth_threshold) * (2 / 10)) ∧
    (m.new_papers ≠ 0 → ¬m.iteration_number ≥ cfg.max_iterations →
      ¬m.growth_rate < cfg.growth_threshold →
      m.novelty_rate < cfg.novelty_threshold →
      (SaturationDetector.check cfg m).is_saturated = true ∧
      (SaturationDetector.check cfg m).confidence = 9 / 10) ∧
    (m.new_papers ≠ 0 → ¬m.iteration_number ≥ cfg.max_iterations →
      ¬m.growth_rate < cfg.growth_threshold →
      ¬m.novelty_rate < cfg.novelty_threshold →
      SaturationDetector.check cfg m =
        { is_saturated := false, reason := none, confidence := 0 }) := by
  refine ⟨?_, ?_, ?_, ?_, ?_⟩
  · intro h0
    unfold SaturationDetector.check
    rw [if_pos h0]
  · intro h0 h1
    unfold SaturationDetector.check
    rw [if_neg h0, if_pos h1]
    exact ⟨rfl, rfl⟩
  · intro h0 h1 h2
    unfold SaturationDetector.check
    rw [if_neg h0, if_neg h1, if_pos h2]
    exact ⟨rfl, rfl⟩
  · intro h0 h1 h2 h3
    unfold SaturationDetector.check
    rw [if_neg h0, if_neg h1, if_neg h2, if_pos h3]
    exact ⟨rfl, rfl⟩
  · intro h0 h1 h2 h3
    unfold SaturationDetector.check
    rw [if_neg h0, if_neg h1, if_neg h2, if_neg h3]

/-- Witness for the saturation-order theorem: with the default
configuration and an iteration with zero new papers whose growth and
novelty rates both breach their thresholds, the detector reports the
no-new-papers reason with confidence 1. -/
theorem saturation_check_first_match_order_witness :
    SaturationDetector.check defaultConfig mNoNew =
      { is_saturated := true
        reason := some "No new papers added this iteration"
        confidence := 1 } :=
  (saturation_check_first_match_order defaultConfig mNoNew).1 rfl

/-- C7: the per-channel discovery counts recorded by
`_calculate_metrics` are identically zero — the function does not receive
any per-channel information at all (its own comment reads "Source counts
would need to be tracked during collection"), so the recorded counts do
not equal the papers actually found per channel whenever any channel
found at least one paper. -/
theorem metrics_channel_counts_always_zero (iterationNum : Int)
    (allCollected : List Paper) (candidates : List Work)
    (selected : List Paper) :
    (SnowballEngine.calc_metrics iterationNum allCollected candidates
        selected).forward_found = 0 ∧
    (SnowballEngine.calc_metrics iterationNum allCollected candidates
        selected).backward_found = 0 ∧
    (SnowballEngine.calc_metrics iterationNum allCollected candidates
        selected).author_found = 0 ∧
    (SnowballEngine.calc_metrics iterationNum allCollected candidates
        selected).related_found = 0 :=
  ⟨rfl, rfl, rfl, rfl⟩

/-- Project configuration with preprints disabled. -/
def cfgNoPreprints : ProjectConfig :=
  { defaultConfig with include_preprints := false }

/-- A `posted-content` work that satisfies every other filter criterion. -/
def workPosted : Work :=
  { paperId := "W500"
    publicationTypes := some ["posted-content"]
    type_value := none
    year := some 2020
    citationCount := 10
    counts_by_year := []
    referenced_works := []
    authors := []
    language_value := none
    is_retracted_value := false }

/-- C5: evidence of the filter bug.  With preprints disabled, a
`posted-content` work passes `_is_valid_type` and `should_include`:
the normalised `work_type` is `posted_content` (dash replaced by
underscore) while `exclude_types` still lists `posted-content` with a
dash, so the exclusion test never matches posted content. -/
theorem posted_content_passes_type_filter :
    PaperFilter.is_valid_type cfgNoPreprints workPosted = true ∧
    PaperFilter.should_include cfgNoPreprints workPosted = true ∧
    pyReplace (pyLower "Posted-Content") "-" "_" = "posted_content" ∧
    exclude_types.contains "posted_content" = false := by
  refine ⟨?_, ?_, ?_, ?_⟩ <;> decide

/-- Scoring context with a single seed `seedS` that references `workW`. -/
def seedS : Paper :=
  { id := "seed1"
    openalex_id := "W456"
    title := "Seed Paper"
    authors := [{ id := "A2", display_name := "Seed Author" }]
    publication_year := some 2019
    cited_by_count := 50
    counts_by_year := []
    referenced_works := ["W1"]
    score := 0
    discovery_method := .seed
    discovered_from := []
    iteration_added := 0 }

/-- Candidate work referenced by the single seed. -/
def workW : Work :=
  { paperId := "W1"
    publicationTypes := some ["journal-article"]
    type_value := none
    year := some 2020
    citationCount := 100
    counts_by_year := [{ year := 2021, cited_by_count := 30 },
                       { year := 2022, cited_by_count := 40 },
                       { year := 2023, cited_by_count := 30 }]
    referenced_works := []
    authors := [{ authorId := some "A1", sname := some "Test Author" }]
    language_value := some "en"
    is_retracted_value := false }

/-- Context containing only `seedS` as seed. -/
def ctxSingleSeed : ScoringContext :=
  { seed_papers := [seedS]
    seed_authors := {"A2"}
    current_year := 2024
    weights := defaultWeights
    seed_referenced_works := {"W1"} }

/-- A work with a non-empty per-year citation list but no publication
year. -/
def workNoYear : Work :=
  { paperId := "W600"
    publicationTypes := none
    type_value := some "journal-article"
    year := none
    citationCount := 3
    counts_by_year := [{ year := 2023, cited_by_count := 5 }]
    referenced_works := []
    authors := []
    language_value := none
    is_retracted_value := false }

/-- C10: evidence of the scorer totality bug.  For a work with a
non-empty `counts_by_year` and no publication year, the recent-citations
component compares an integer against `None` and raises a `TypeError`,
so `get_score_breakdown` fails instead of returning a breakdown (every
sibling component guards the missing year; this one does not). -/
theorem scorer_typeerror_on_missing_year :
    Scorer.calc_recent_citations workNoYear ctxSingleSeed =
      .error { name := "TypeError"
               msg := "unsupported comparison between int and NoneType" } ∧
    Scorer.get_score_breakdown defaultWeights workNoYear ctxSingleSeed =
      .error { name := "TypeError"
               msg := "unsupported comparison between int and NoneType" } := by
  exact ⟨rfl, rfl⟩

/-- C1 counterexample: an iteration that admits `paperB` replaces the
working set, so `paperA`, which was in the working set used for the
current iteration, is not in the working set used for the next
iteration (and the metrics record one newly admitted paper). -/
theorem working_set_union_counterexample :
    1 ≤ (SnowballEngine.run_iteration_update 1 ⟨[paperA], [paperA]⟩
          [workCand] [paperB]).2.new_papers ∧
    paperA ∈ (⟨[paperA], [paperA]⟩ : EngineState).working_set ∧
    paperA ∉ (SnowballEngine.run_iteration_update 1 ⟨[paperA], [paperA]⟩
          [workCand] [paperB]).1.working_set := by
  refine ⟨?_, ?_, ?_⟩
  · norm_num [SnowballEngine.run_iteration_update, SnowballEngine.calc_metrics]
  · simp
  · simp only [SnowballEngine.run_iteration_update, List.mem_singleton]
    decide

/-- C1 (amended): after every iteration the working set used for the
next iteration equals exactly the papers newly admitted in the current
iteration (the previous working set is discarded), while the cumulative
collection is extended by the admitted papers — so the union property
claimed for the working set holds for the cumulative collection
instead. -/
theorem working_set_replaced_amended (iterationNum : Int) (s : EngineState)
    (candidates : List Work) (selected : List Paper) :
    (SnowballEngine.run_iteration_update iterationNum s candidates
        selected).1.working_set = selected ∧
    (SnowballEngine.run_iteration_update iterationNum s candidates
        selected).1.all_collected = s.all_collected ++ selected ∧
    (∀ p, p ∈ s.all_collected →
      p ∈ (SnowballEngine.run_iteration_update iterationNum s candidates
            selected).1.all_collected) ∧
    (∀ p, p ∈ selected →
      p ∈ (SnowballEngine.run_iteration_update iterationNum s candidates
            selected).1.all_collected) := by
  refine ⟨rfl, rfl, ?_, ?_⟩ <;> intro p hp <;>
    simp [SnowballEngine.run_iteration_update, hp]

/-- Witness for the amended C1 theorem at a concrete iteration. -/
theorem working_set_replaced_amended_witness :
    paperA ∈ (SnowballEngine.run_iteration_update 1 ⟨[paperA], [paperA]⟩
        [workCand] [paperB]).1.all_collected ∧
    paperB ∈ (SnowballEngine.run_iteration_update 1 ⟨[paperA], [paperA]⟩
        [workCand] [paperB]).1.all_collected :=
  ⟨(working_set_replaced_amended 1 ⟨[paperA], [paperA]⟩ [workCand]
      [paperB]).2.2.1 paperA (by simp),
   (working_set_replaced_amended 1 ⟨[paperA], [paperA]⟩ [workCand]
      [paperB]).2.2.2 paperB (by simp)⟩

/-- C6 counterexample: an iteration with two collected papers, one
candidate and no selections has `growth_rate = 0` and `novelty_rate = 0`
although both denominators (`papers_before = 2`,
`candidates_considered = 1`) are non-zero, refuting "each rate is 0
exactly when its denominator is 0". -/
theorem metrics_rate_zero_counterexample :
    (SnowballEngine.calc_metrics 1 [paperA, paperB] [workCand] []).growth_rate
        = 0 ∧
    (SnowballEngine.calc_metrics 1 [paperA, paperB] [workCand] []).papers_before
        = 2 ∧
    (SnowballEngine.calc_metrics 1 [paperA, paperB] [workCand] []).novelty_rate
        = 0 ∧
    ([workCand] : List Work).length = 1 := by
  refine ⟨?_, ?_, ?_, rfl⟩ <;>
    norm_num [SnowballEngine.calc_metrics]

/-- C6 (amended): for every iteration (with the selected papers counted
inside the cumulative collection, as at the call site),
`growth_rate = new_papers/papers_before` (0 when `papers_before = 0`),
`novelty_rate = new_papers/candidates_considered` (0 when there are no
candidates), both rates are ≥ 0, and each rate is 0 exactly when its
denominator is 0 or `new_papers` is 0. -/
theorem metrics_rates_amended (iterationNum : Int)
    (allCollected : List Paper) (candidates : List Work)
    (selected : List Paper) (m : IterationMetrics)
    (hm : m = SnowballEngine.calc_metrics iterationNum allCollected
        candidates selected)
    (h : selected.length ≤ allCollected.length) :
    0 ≤ m.growth_rate ∧
    0 ≤ m.novelty_rate ∧
    (m.papers_before = 0 → m.growth_rate = 0) ∧
    (m.papers_before ≠ 0 →
      m.growth_rate = (m.new_papers : ℚ) / (m.papers_before : ℚ)) ∧
    (candidates = [] → m.novelty_rate = 0) ∧
    (candidates ≠ [] →
      m.novelty_rate = (m.new_papers : ℚ) / (candidates.length : ℚ)) ∧
    (m.growth_rate = 0 ↔ (m.papers_before = 0 ∨ m.new_papers = 0)) ∧
    (m.novelty_rate = 0 ↔ (candidates.length = 0 ∨ m.new_papers = 0)) := by
  subst hm
  simp only [SnowballEngine.calc_metrics]
  constructor
  · split
    · positivity
    · exact le_refl 0
  constructor
  · split
    · exact le_refl 0
    · positivity
  constructor
  · intro h0
    rw [if_neg]
    omega
  constructor
  · intro h0
    rw [if_pos]
    omega
  constructor
  · intro h0
    rw [if_pos h0]
  constructor
  · intro h0
    rw [if_neg h0]
  constructor
  · constructor
    · intro h0
      by_cases hp : (allCollected.length : Int) - (selected.length : Int) > 0
      · rw [if_pos hp] at h0
        rcases div_eq_zero_iff.mp h0 with h1 | h1
        · right
          exact_mod_cast h1
        · left
          exact absurd (by exact_mod_cast h1) (by omega)
      · left
        omega
    · intro h0
      rcases h0 with h1 | h1
      · rw [if_neg]
        omega
      · split
        · rw [h1]
          norm_num
        · rfl
  · constructor
    · intro h0
      by_cases hc : candidates = []
      · left
        simp [hc]
      · rw [if_neg hc] at h0
        rcases div_eq_zero_iff.mp h0 with h1 | h1
        · right
          exact_mod_cast h1
        · left
          exact_mod_cast h1
    · intro h0
      rcases h0 with h1 | h1
      · rw [if_pos (List.length_eq_zero.mp h1)]
      · split
        · rfl
        · rw [h1]
          norm_num

/-- Witness for the amended C6 theorem at a concrete iteration. -/
theorem metrics_rates_amended_witness :
    0 ≤ (SnowballEngine.calc_metrics 1 [paperA, paperB] [workCand]
        []).growth_rate ∧
    ((SnowballEngine.calc_metrics 1 [paperA, paperB] [workCand]
        []).growth_rate = 0 ↔
      ((SnowballEngine.calc_metrics 1 [paperA, paperB] [workCand]
          []).papers_before = 0 ∨
        (SnowballEngine.calc_metrics 1 [paperA, paperB] [workCand]
          []).new_papers = 0)) :=
  ⟨(metrics_rates_amended 1 [paperA, paperB] [workCand] [] _ rfl
      (by simp)).1,
   (metrics_rates_amended 1 [paperA, paperB] [workCand] [] _ rfl
      (by simp)).2.2.2.2.2.2.1⟩

/-- Replacing the entry stored under a tracked id makes the lookup return
the new value. -/
theorem findDiscovery_setDiscovery (t : DiscoveryMap) (workId : String)
    (v : DiscoveryMethod × Finset String)
    (h : (findDiscovery t workId).isSome) :
    findDiscovery (setDiscovery t workId v) workId = some v := by
  induction t with
  | nil => simp [findDiscovery] at h
  | cons e rest ih =>
    obtain ⟨k, w⟩ := e
    by_cases hk : k = workId
    · subst hk
      simp [setDiscovery, findDiscovery]
    · have h' : (findDiscovery rest workId).isSome := by
        simpa [findDiscovery, hk] using h
      simp [setDiscovery, findDiscovery, hk, ih h']

/-- Tracker state after recording work `W` first via `backward` with
source `A`, then via `author` with source `B`. -/
def tBackwardAuthor : DiscoveryMap :=
  DiscoveryTracker.add_discovery
    (DiscoveryTracker.add_discovery [] "W" .backward {"A"}) "W" .author {"B"}

/-- Tracker state after recording work `W` first via `author` with
source `A`, then via `backward` with source `B`. -/
def tAuthorBackward : DiscoveryMap :=
  DiscoveryTracker.add_discovery
    (DiscoveryTracker.add_discovery [] "W" .author {"A"}) "W" .backward {"B"}

/-- C3 counterexample: recording first via `backward` (source `A`) then
via `author` (source `B`) yields method `author` but source set `{B}` —
the higher-priority recording replaces the source set instead of merging
it, so the final set is not the union `{A, B}`. -/
theorem add_discovery_merge_counterexample :
    DiscoveryTracker.get_discovery_method tBackwardAuthor "W" = .author ∧
    DiscoveryTracker.get_discovery_sources tBackwardAuthor "W" = {"B"} ∧
    DiscoveryTracker.get_discovery_sources tBackwardAuthor "W" ≠
      ({"A", "B"} : Finset String) := by
  refine ⟨by decide, by decide, by decide⟩

/-- C3 (amended): conflicts on the same work id are resolved by the
priority `author(3) > forward(2) > backward(1) = related(1) > seed(0)`;
a strictly higher-priority recording replaces both the stored method and
the stored source set, while an equal-or-lower-priority recording keeps
the stored method and merges the new source ids into the stored set.
Consequently backward-then-author ends with method `author` and sources
`{B}` (the second recording's sources only), while author-then-backward
ends with method `author` and the merged sources `{A, B}`. -/
theorem add_discovery_priority_amended :
    (∀ (t : DiscoveryMap) (workId : String) (m : DiscoveryMethod)
        (s : Finset String) (em : DiscoveryMethod) (es : Finset String),
      findDiscovery t workId = some (em, es) →
        (priorityOf m > priorityOf em →
          findDiscovery (DiscoveryTracker.add_discovery t workId m s) workId
            = some (m, s)) ∧
        (¬priorityOf m > priorityOf em →
          findDiscovery (DiscoveryTracker.add_discovery t workId m s) workId
            = some (em, es ∪ s))) ∧
    DiscoveryTracker.get_discovery_method tBackwardAuthor "W" = .author ∧
    DiscoveryTracker.get_discovery_sources tBackwardAuthor "W" = {"B"} ∧
    DiscoveryTracker.get_discovery_method tAuthorBackward "W" = .author ∧
    DiscoveryTracker.get_discovery_sources tAuthorBackward "W" =
      ({"A", "B"} : Finset String) := by
  refine ⟨?_, by decide, by decide, by decide, by decide⟩
  intro t workId m s em es h
  have hs : (findDiscovery t workId).isSome := by
    rw [h]
    rfl
  constructor
  · intro hp
    simp only [DiscoveryTracker.add_discovery, h]
    rw [if_pos hp]
    exact findDiscovery_setDiscovery t workId (m, s) hs
  · intro hp
    simp only [DiscoveryTracker.add_discovery, h]
    rw [if_neg hp]
    exact findDiscovery_setDiscovery t workId (em, es ∪ s) hs

/-- Witness for the amended C3 theorem: applying the general conflict
rule to a concrete tracked entry. -/
theorem add_discovery_priority_amended_witness :
    findDiscovery
        (DiscoveryTracker.add_discovery
          [("W", (DiscoveryMethod.backward, {"A"}))] "W" .author {"B"}) "W"
      = some (.author, {"B"}) :=
  (add_discovery_priority_amended.1 [("W", (DiscoveryMethod.backward, {"A"}))]
      "W" .author {"B"} .backward {"A"} (by decide)).1 (by decide)

/-- Empty paper store. -/
def emptyDb : Database := { papers := [] }

/-- C8 counterexample: on a store with no seed papers the run aborts with
a `ValueError` (the source never defines a `NoSeedsError` class), so the
failure is not a `NoSeedsError`. -/
theorem runStart_valueerror_counterexample :
    SnowballEngine.runStart emptyDb "proj1" =
      .error { name := "ValueError"
               msg := "No seed papers found in project" } ∧
    ({ name := "ValueError", msg := "No seed papers found in project" }
        : PyErr).name ≠ "NoSeedsError" := by
  exact ⟨rfl, by decide⟩

/-- C8 (amended): for every project whose store contains no seed rows,
the run fails before iterating, raising
`ValueError("No seed papers found in project")` rather than returning a
result (the spec's `NoSeedsError` does not exist in the source). -/
theorem runStart_no_seeds_amended (db : Database) (pid : String)
    (h : ∀ r ∈ db.papers,
      ¬(r.project_id = pid ∧
        r.paper.discovery_method = DiscoveryMethod.seed)) :
    SnowballEngine.runStart db pid =
      .error { name := "ValueError"
               msg := "No seed papers found in project" } ∧
    ∀ res, SnowballEngine.runStart db pid ≠ .ok res := by
  have hfil : db.papers.filter
      (fun r => r.project_id == pid &&
        r.paper.discovery_method == DiscoveryMethod.seed) = [] := by
    rw [List.filter_eq_nil_iff]
    intro r hr
    intro hc
    rw [Bool.and_eq_true, beq_iff_eq, beq_iff_eq] at hc
    exact h r hr hc
  have hseeds : PaperRepository.list_seeds db pid = [] := by
    rw [PaperRepository.list_seeds, hfil]
    rfl
  constructor
  · rw [SnowballEngine.runStart, hseeds]
    simp
  · intro res
    rw [SnowballEngine.runStart, hseeds]
    simp

/-- Witness for the amended C8 theorem on the empty store. -/
theorem runStart_no_seeds_amended_witness :
    SnowballEngine.runStart emptyDb "proj1" =
      .error { name := "ValueError"
               msg := "No seed papers found in project" } :=
  (runStart_no_seeds_amended emptyDb "proj1" (by simp [emptyDb])).1

/-- The freshening of a falsy paper id in `create` does not change the
external id. -/
theorem create_fresh_openalex_id (p : Paper) (f : String) :
    (if p.id = "" then { p with id := f } else p).openalex_id =
      p.openalex_id := by
  split <;> rfl

/-- `extIdsUnique db`: every `(project_id, openalex_id)` pair occurs at
most once in the store — the spec's per-project external-id uniqueness
invariant. -/
def extIdsUnique (db : Database) : Prop :=
  (db.papers.map (fun r => (r.project_id, r.paper.openalex_id))).Nodup

/-- After a miss, the row inserted by `create` is found by a subsequent
lookup of the same `(project, external id)` pair. -/
theorem get_after_create_miss (db : Database) (pid : String) (p : Paper)
    (f : String)
    (hget : PaperRepository.get_by_openalex_id db pid p.openalex_id = none) :
    PaperRepository.get_by_openalex_id
        { papers := db.papers ++
            [{ project_id := pid
               paper := if p.id = "" then { p with id := f } else p }] }
        pid p.openalex_id =
      some (if p.id = "" then { p with id := f } else p) := by
  have hfindnone : db.papers.find?
      (fun r => r.project_id == pid && r.paper.openalex_id == p.openalex_id)
        = none := by
    unfold PaperRepository.get_by_openalex_id at hget
    exact Option.map_eq_none'.mp hget
  unfold PaperRepository.get_by_openalex_id
  rw [List.find?_append, hfindnone]
  simp [List.find?, create_fresh_openalex_id]

/-- `create` preserves the external-id uniqueness invariant. -/
theorem create_preserves_unique (db : Database) (pid : String) (p : Paper)
    (f : String) (h : extIdsUnique db) :
    extIdsUnique (PaperRepository.create db pid p f).2 := by
  cases hget : PaperRepository.get_by_openalex_id db pid p.openalex_id with
  | some q => simpa [PaperRepository.create, hget] using h
  | none =>
    have hfindnone : db.papers.find?
        (fun r => r.project_id == pid && r.paper.openalex_id == p.openalex_id)
          = none := by
      unfold PaperRepository.get_by_openalex_id at hget
      exact Option.map_eq_none'.mp hget
    have hnotin : (pid, p.openalex_id) ∉
        db.papers.map (fun r => (r.project_id, r.paper.openalex_id)) := by
      intro hmem
      obtain ⟨r, hr, hre⟩ := List.mem_map.mp hmem
      have hfalse := List.find?_eq_none.mp hfindnone r hr
      apply hfalse
      rw [Bool.and_eq_true, beq_iff_eq, beq_iff_eq]
      exact ⟨congrArg Prod.fst hre, congrArg Prod.snd hre⟩
    simp only [PaperRepository.create, hget]
    unfold extIdsUnique at h ⊢
    simp only [List.map_append, List.map_cons, List.map_nil]
    rw [List.nodup_append]
    refine ⟨h, List.nodup_singleton _, ?_⟩
    intro a ha hax
    rw [List.mem_singleton] at hax
    subst hax
    rw [create_fresh_openalex_id] at ha
    exact hnotin ha

/-- Folding `create` over any sequence of inserts
(`(project id, paper, fresh id)` triples). -/
def createAll (db : Database) (inserts : List (String × Paper × String)) :
    Database :=
  inserts.foldl (fun d i => (PaperRepository.create d i.1 i.2.1 i.2.2).2) db

/-- Any sequence of `create` calls preserves the uniqueness invariant. -/
theorem createAll_preserves_unique (db : Database)
    (inserts : List (String × Paper × String)) (h : extIdsUnique db) :
    extIdsUnique (createAll db inserts) := by
  induction inserts generalizing db with
  | nil => simpa [createAll] using h
  | cons i rest ih =>
    show extIdsUnique
      (createAll (PaperRepository.create db i.1 i.2.1 i.2.2).2 rest)
    exact ih _ (create_preserves_unique db i.1 i.2.1 i.2.2 h)

/-- C4: `create` is idempotent by external id — a lookup hit makes it a
no-op returning the already-stored record; running `create` twice with
the same paper leaves the store and result of the first call unchanged;
and both a single `create` and any sequence of `create` calls preserve
the invariant that each external id occurs at most once per project. -/
theorem create_idempotent_by_external_id :
    (∀ (db : Database) (pid : String) (p q : Paper) (f : String),
      PaperRepository.get_by_openalex_id db pid p.openalex_id = some q →
        PaperRepository.create db pid p f = (q, db)) ∧
    (∀ (db : Database) (pid : String) (p : Paper) (f1 f2 : String),
      PaperRepository.create (PaperRepository.create db pid p f1).2 pid p f2
        = PaperRepository.create db pid p f1) ∧
    (∀ (db : Database) (pid : String) (p : Paper) (f : String),
      extIdsUnique db → extIdsUnique (PaperRepository.create db pid p f).2) ∧
    (∀ (db : Database) (inserts : List (String × Paper × String)),
      extIdsUnique db → extIdsUnique (createAll db inserts)) := by
  refine ⟨?_, ?_, create_preserves_unique, createAll_preserves_unique⟩
  · intro db pid p q f hget
    simp [PaperRepository.create, hget]
  · intro db pid p f1 f2
    cases hget : PaperRepository.get_by_openalex_id db pid p.openalex_id with
    | some q =>
      simp [PaperRepository.create, hget]
    | none =>
      have h1 : PaperRepository.create db pid p f1 =
          (if p.id = "" then { p with id := f1 } else p,
            { papers := db.papers ++
                [{ project_id := pid
                   paper := if p.id = "" then { p with id := f1 } else p }] }) := by
        simp [PaperRepository.create, hget]
      rw [h1]
      simp [PaperRepository.create, get_after_create_miss db pid p f1 hget]

/-- Store holding `paperA` in project `proj`. -/
def dbOne : Database := { papers := [{ project_id := "proj", paper := paperA }] }

/-- Witness for the C4 theorem at concrete stores. -/
theorem create_idempotent_by_external_id_witness :
    PaperRepository.create dbOne "proj" paperA "fresh" = (paperA, dbOne) ∧
    extIdsUnique (PaperRepository.create emptyDb "proj" paperA "fresh").2 :=
  ⟨create_idempotent_by_external_id.1 dbOne "proj" paperA paperA "fresh" rfl,
   create_idempotent_by_external_id.2.2.1 emptyDb "proj" paperA "fresh"
     (by unfold extIdsUnique emptyDb; simp)⟩

/-- The seed-scan loop with `break` finds a matching reference exactly
when the normalised reference list contains the work id. -/
theorem firstRefMatches_iff_mem (workId : String) (refs : List String) :
    firstRefMatches workId refs = true ↔
      workId ∈ refs.map (fun r => pyReplace r openalexUrl "") := by
  induction refs with
  | nil => simp [firstRefMatches]
  | cons r rs ih =>
    by_cases hr : pyReplace r openalexUrl "" = workId
    · simp [firstRefMatches, hr]
    · simp only [firstRefMatches, hr, if_false, List.map_cons,
        List.mem_cons, ih]
      constructor
      · exact Or.inr
      · rintro (h1 | h1)
        · exact absurd h1.symm hr
        · exact h1

/-- The counting fold of `_calculate_foundational_score` computes
`countP` of the per-seed match. -/
theorem citingSeedCount_eq_countP (workId : String) (seeds : List Paper)
    (n : Nat) :
    seeds.foldl
        (fun acc seed =>
          if firstRefMatches workId seed.referenced_works then acc + 1
          else acc) n =
      n + seeds.countP
        (fun s => firstRefMatches workId s.referenced_works) := by
  induction seeds generalizing n with
  | nil => simp
  | cons s ss ih =>
    by_cases h : firstRefMatches workId s.referenced_works <;>
      · simp [List.foldl_cons, h, ih, List.countP_cons]
        try omega

/-- C9: the foundational score is the number of seed papers whose
(normalised) reference list contains the candidate's id, divided by the
number of seed papers, and 0 when there are no seeds; for the context
whose only seed references `workW`, the score is 1.0 and with default
weights this component contributes `0.25 × 1.0 = 0.25` to the weighted
total. -/
theorem foundational_score_spec :
    (∀ (w : Work) (ctx : ScoringContext),
      (ctx.seed_papers = [] → Scorer.calc_foundational_score w ctx = 0) ∧
      (ctx.seed_papers ≠ [] →
        Scorer.calc_foundational_score w ctx =
          ((ctx.seed_papers.countP
              (fun s => decide (w.paperId ∈
                s.referenced_works.map
                  (fun r => pyReplace r openalexUrl "")))) : ℚ) /
            (ctx.seed_papers.length : ℚ))) ∧
    Scorer.calc_foundational_score workW ctxSingleSeed = 1 ∧
    defaultWeights.foundational *
        Scorer.calc_foundational_score workW ctxSingleSeed = 25 / 100 := by
  have hgen : ∀ (w : Work) (ctx : ScoringContext),
      (ctx.seed_papers = [] → Scorer.calc_foundational_score w ctx = 0) ∧
      (ctx.seed_papers ≠ [] →
        Scorer.calc_foundational_score w ctx =
          ((ctx.seed_papers.countP
              (fun s => decide (w.paperId ∈
                s.referenced_works.map
                  (fun r => pyReplace r openalexUrl "")))) : ℚ) /
            (ctx.seed_papers.length : ℚ)) := by
    intro w ctx
    constructor
    · intro h0
      simp [Scorer.calc_foundational_score, h0]
    · intro h0
      rw [Scorer.calc_foundational_score, if_neg h0]
      congr 1
      rw [citingSeedCount, citingSeedCount_eq_countP, Nat.zero_add]
      norm_cast
      apply List.countP_congr
      intro s _
      simp [firstRefMatches_iff_mem]
  have hone : Scorer.calc_foundational_score workW ctxSingleSeed = 1 := by
    have hcount : citingSeedCount workW.paperId ctxSingleSeed.seed_papers
        = 1 := by decide
    rw [Scorer.calc_foundational_score, if_neg (by decide), hcount]
    norm_num [ctxSingleSeed]
  refine ⟨hgen, hone, ?_⟩
  rw [hone]
  norm_num [defaultWeights]

/-- Witness for the C9 theorem: the general characterisation applied to
the single-seed context. -/
theorem foundational_score_spec_witness :
    Scorer.calc_foundational_score workW ctxSingleSeed =
      ((ctxSingleSeed.seed_papers.countP
          (fun s => decide (workW.paperId ∈
            s.referenced_works.map
              (fun r => pyReplace r openalexUrl "")))) : ℚ) /
        (ctxSingleSeed.seed_papers.length : ℚ) :=
  (foundational_score_spec.1 workW ctxSingleSeed).2 (by decide)
